import Mathlib

/-!
Verification of the Finance-Web-Scrapper repository (src/main.py).

The development shallowly embeds the pieces of `main.py` that the
specification's claims are about:

* the HTML table-extraction logic of `scrape_table` (lines 83-101),
  over a DOM tree model of the document BeautifulSoup produces, with
  `find_all` descendant search, `get_text(strip=True)` text extraction
  and Python list indexing (including negative indices);
* the HTML-payload extraction and empty-payload check of `scrape_table`
  (lines 69-79);
* `create_new_google_sheet_tab` (lines 24-37), with the HTTP POST
  modelled as an oracle function from (url, form payload) to a response;
* the `__main__` orchestration block (lines 167-177), with each
  collaborator call represented by its outcome and the list of calls
  issued recorded as a trace.
-/

namespace FinanceScraper

/-- A parsed HTML node, the tree BeautifulSoup's `html.parser` backend
produces: either a text (NavigableString) node, or an element with a tag
name, attributes and children in document order. -/
inductive Node where
  | text (s : String)
  | elem (tag : String) (attrs : List (String × String)) (children : List Node)

mutual

/-- All descendants of a node in document (pre-order) order, the node
itself excluded, text nodes included: BeautifulSoup's `.descendants`. -/
def descendants (n : Node) : List Node :=
  match n with
  | .text _ => []
  | .elem _ _ cs => descList cs
termination_by structural n

/-- Descendants of a forest of sibling nodes, in document order: each
node followed by its own descendants. -/
def descList (l : List Node) : List Node :=
  match l with
  | [] => []
  | c :: cs => c :: descendants c ++ descList cs
termination_by structural l

end

/-- Whether a node is an element whose tag is one of `names`: the filter
BeautifulSoup applies for `find_all(["th", "td"])`-style queries. -/
def matchesTags (names : List String) : Node → Bool
  | .text _ => false
  | .elem tag _ _ => names.contains tag

/-- BeautifulSoup `find_all`: all descendant elements with one of the
given tag names, in document order (the element itself excluded). -/
def find_all (names : List String) (n : Node) : List Node :=
  (descendants n).filter (matchesTags names)

/-- Drop the leading whitespace characters of a character list. -/
def dropLeadingWS : List Char → List Char
  | [] => []
  | c :: cs => if c.isWhitespace then dropLeadingWS cs else c :: cs

/-- Python `str.strip()`: remove leading and trailing whitespace (over
the ASCII whitespace characters that occur in HTML text). -/
def pyStrip (s : String) : String :=
  String.mk ((dropLeadingWS ((dropLeadingWS s.data).reverse)).reverse)

mutual

/-- All descendant text-node strings of a node, in document order:
BeautifulSoup's `_all_strings` without stripping. -/
def nodeStrings (n : Node) : List String :=
  match n with
  | .text s => [s]
  | .elem _ _ cs => stringsList cs
termination_by structural n

/-- The descendant text-node strings of a forest of siblings, in
document order. -/
def stringsList (l : List Node) : List String :=
  match l with
  | [] => []
  | c :: cs => nodeStrings c ++ stringsList cs
termination_by structural l

end

/-- BeautifulSoup `get_text(strip=True)`: each descendant string is
stripped, strings that become empty are skipped, and the rest are
concatenated with an empty separator. -/
def get_text_strip (n : Node) : String :=
  String.join (((nodeStrings n).map pyStrip).filter (fun s => s ≠ ""))

/-- The cell strings of one row element (src/main.py:96):
`[td.get_text(strip=True) for td in tr.find_all(["th", "td"])]`. -/
def rowCells (tr : Node) : List String :=
  (find_all ["th", "td"] tr).map get_text_strip

/-- The row-accumulation loop of `scrape_table` (src/main.py:94-98): for
each `tr` found in the table, collect its cells and keep the row exactly
when the cell list is non-empty (Python `if cells:`). -/
def extractRows (t : Node) : List (List String) :=
  (find_all ["tr"] t).filterMap (fun tr =>
    let cells := rowCells tr
    if cells = [] then none else some cells)

/-- Python list indexing `xs[i]` for `int` index `i`: non-negative
indices count from the front, negative indices count from the end, and
`none` models the `IndexError` raised when the index is out of bounds. -/
def pyGet {α : Type} (xs : List α) (i : Int) : Option α :=
  if 0 ≤ i then xs.get? i.toNat
  else if 0 ≤ i + xs.length then xs.get? (i + xs.length).toNat
  else none

/-- The out-of-range message of src/main.py:88:
`f"Only {len(tables)} tables found; index {table_index} out of range"`. -/
def oorMsg (n : Nat) (i : Int) : String :=
  "Only " ++ (toString n ++ (" tables found; index " ++ (toString i ++ " out of range")))

/-- The parse-and-extract step of `scrape_table` (src/main.py:83-101),
taking the already-parsed document: collect all tables, raise
`IndexError` with the out-of-range message when
`table_index >= len(tables)`, otherwise select `tables[table_index]`
(Python indexing, so a negative index counts from the end and an
unrepresentable one raises a bare `IndexError`) and extract its rows. -/
def scrapeExtract (doc : Node) (table_index : Int) : Except String (List (List String)) :=
  let tables := find_all ["table"] doc
  if (tables.length : Int) ≤ table_index then
    Except.error (oorMsg tables.length table_index)
  else
    match pyGet tables table_index with
    | none => Except.error "IndexError: list index out of range"
    | some t => Except.ok (extractRows t)

/-- All table elements of a document, in document order
(src/main.py:84). -/
def tablesOf (doc : Node) : List Node := find_all ["table"] doc

/-- The table `scrape_table` would operate on: `tables[table_index]`
under Python indexing. -/
def selectedTable (doc : Node) (table_index : Int) : Option Node :=
  pyGet (tablesOf doc) table_index

/-- The response object returned by the Firecrawl scrape call, as
`scrape_table` inspects it (src/main.py:69-74): it may carry a `data`
dictionary, and otherwise is probed for top-level `rawHtml` and `html`
attributes; `none` models a missing attribute or dictionary key. -/
structure ScrapeResponse where
  data? : Option (List (String × String))
  rawHtml? : Option String
  html? : Option String

/-- Python `a or b` on optional strings: `a` when it is truthy (present
and non-empty), otherwise `b`. -/
def pyOrStr (a b : Option String) : Option String :=
  match a with
  | some s => if s = "" then b else some s
  | none => b

/-- Python `dict.get(key)`: the value at the first matching key, or
`none`. -/
def dictGet (d : List (String × String)) (k : String) : Option String :=
  (d.find? (fun p => p.1 == k)).map Prod.snd

/-- The HTML-payload extraction of `scrape_table` (src/main.py:69-74):
`resp.data.get("rawHtml") or resp.data.get("html")` when the response
has a `data` attribute, else the top-level `rawHtml` or `html`
attribute. -/
def extractHtml (resp : ScrapeResponse) : Option String :=
  match resp.data? with
  | some d => pyOrStr (dictGet d "rawHtml") (dictGet d "html")
  | none => pyOrStr resp.rawHtml? resp.html?

/-- The message of the `RuntimeError` raised at src/main.py:78 when the
payload is falsy (the source text spells the possessive of Firecrawl
with a right single quotation mark, elided here). -/
def noHtmlMsg : String := "No HTML returned by the Firecrawl scrape endpoint"

/-- `scrape_table` after the network call succeeded (src/main.py:69-101):
pull the HTML out of the response, fail with `noHtmlMsg` when it is
absent or empty (Python `if not html:`), otherwise parse it (the `parse`
parameter stands for `BeautifulSoup(html, "html.parser")`) and run the
extraction step. -/
def scrape_table (resp : ScrapeResponse) (parse : String → Node) (table_index : Int) :
    Except String (List (List String)) :=
  match extractHtml resp with
  | none => Except.error noHtmlMsg
  | some h =>
    if h = "" then Except.error noHtmlMsg
    else scrapeExtract (parse h) table_index

/-- An HTTP response as `create_new_google_sheet_tab` inspects it:
status code and body text. -/
structure HttpResponse where
  status_code : Nat
  text : String

/-- `create_new_google_sheet_tab` (src/main.py:24-37). The HTTP layer is
an oracle `post` from (url, form payload) to a response. The first
component of the result lists the log messages emitted; the second is
the outcome: the `Exception` message raised on a non-200 status, or
success. The payload is `{"sheetName": sheet_name, "fileId": file_id}`
and is posted to `script_url`. -/
def create_new_google_sheet_tab (sheet_name file_id script_url : String)
    (post : String → List (String × String) → HttpResponse) :
    List String × Except String Unit :=
  let payload := [("sheetName", sheet_name), ("fileId", file_id)]
  let response := post script_url payload
  if response.status_code ≠ 200 then
    let c := response.status_code
    let t := response.text
    (["Failed to create new sheet tab. Status code: " ++ (toString c ++ (", Response: " ++ t))],
     Except.error ("Sheet creation failed: " ++ t))
  else
    (["Successfully created a new tab: " ++ sheet_name], Except.ok ())

/-- The three collaborator calls the `__main__` block issues, in order. -/
inductive Step where
  | provision
  | fetchExtract
  | write
deriving DecidableEq

/-- The `try` block of `__main__` (src/main.py:167-177). Each
collaborator call is represented by its outcome (`Except` models the
Python exception flow: an error aborts the rest of the block). The
first component records which calls were issued, in order; the second
is the outcome the top-level `except` observes. -/
def mainRun (provisionRes : Except String Unit)
    (scrapeRes : Except String (List (List String)))
    (writeRes : List (List String) → Except String Unit) :
    List Step × Except String Unit :=
  match provisionRes with
  | Except.error e => ([Step.provision], Except.error e)
  | Except.ok _ =>
    match scrapeRes with
    | Except.error e => ([Step.provision, Step.fetchExtract], Except.error e)
    | Except.ok table =>
      ([Step.provision, Step.fetchExtract, Step.write], writeRes table)

/-- Modelled from the spec words of the claim under test: cell text
"derived from an element's text content with leading/trailing whitespace
stripped", i.e. concatenate all descendant text and strip once at the
ends. Stated only for comparison with `get_text_strip`, the operation
the source actually performs. -/
def textContentStripped (n : Node) : String :=
  pyStrip (String.join (nodeStrings n))

/-! Concrete documents used by the scenario claims and witnesses. -/

/-- The parse of
`<table><tr><th>A</th><th>B</th></tr><tr><td>1</td><td>2</td></tr><tr></tr></table>`
under `html.parser` (no implied tbody, no html/body wrapper). -/
def table1 : Node :=
  Node.elem "table" [] [
    Node.elem "tr" [] [Node.elem "th" [] [Node.text "A"], Node.elem "th" [] [Node.text "B"]],
    Node.elem "tr" [] [Node.elem "td" [] [Node.text "1"], Node.elem "td" [] [Node.text "2"]],
    Node.elem "tr" [] []]

/-- The document of the C1 scenario: `table1` as the only element. -/
def doc1 : Node := Node.elem "[document]" [] [table1]

/-- A document with no table elements. -/
def docNoTables : Node :=
  Node.elem "[document]" [] [Node.elem "p" [] [Node.text "hello"]]

/-- A document with two sibling tables, the first holding the row
`["first"]` and the second the row `["second"]`. -/
def docTwoTables : Node :=
  Node.elem "[document]" [] [
    Node.elem "table" [] [Node.elem "tr" [] [Node.elem "td" [] [Node.text "first"]]],
    Node.elem "table" [] [Node.elem "tr" [] [Node.elem "td" [] [Node.text "second"]]]]

/-- A cell whose sole content is the text `"  123  "`. -/
def cell123 : Node := Node.elem "td" [] [Node.text "  123  "]

/-- A document whose only table has one row holding `cell123`. -/
def doc123 : Node :=
  Node.elem "[document]" [] [Node.elem "table" [] [Node.elem "tr" [] [cell123]]]

/-- The parse of `<td>a <b>x</b></td>`: a cell with two text segments,
`"a "` directly and `"x"` inside a nested element. -/
def cellMixed : Node :=
  Node.elem "td" [] [Node.text "a ", Node.elem "b" [] [Node.text "x"]]

/-- A document whose only table has one row holding `cellMixed`. -/
def docMixed : Node :=
  Node.elem "[document]" [] [Node.elem "table" [] [Node.elem "tr" [] [cellMixed]]]

/-- The parse of a table whose row is
`<tr><td colspan="2">X</td><td>Y</td></tr>`. -/
def docColspan : Node :=
  Node.elem "[document]" [] [
    Node.elem "table" [] [
      Node.elem "tr" [] [
        Node.elem "td" [("colspan", "2")] [Node.text "X"],
        Node.elem "td" [] [Node.text "Y"]]]]

/-! Shared lemmas about the extraction pipeline. -/

/-- The row loop keeps exactly the rows whose cell list is non-empty, in
order: `extractRows` is the map of `rowCells` over the `tr` elements with
a non-empty cell list. -/
lemma extractRows_eq_filter_map (t : Node) :
    extractRows t
      = ((find_all ["tr"] t).filter (fun tr => !(rowCells tr).isEmpty)).map rowCells := by
  unfold extractRows
  generalize find_all ["tr"] t = l
  induction l with
  | nil => rfl
  | cons a l ih =>
    by_cases h : rowCells a = []
    · simp [List.filterMap_cons, List.filter_cons, h, ih]
    · simp [List.filterMap_cons, List.filter_cons, h, ih]

/-- A row has no cells exactly when it has no th/td descendant. -/
lemma rowCells_eq_nil_iff (tr : Node) :
    rowCells tr = [] ↔ find_all ["th", "td"] tr = [] := by
  simp [rowCells]

/-- `extractRows` keeps exactly the `tr` elements having at least one
th/td descendant, in document order. -/
lemma extractRows_eq_cellfilter_map (t : Node) :
    extractRows t
      = ((find_all ["tr"] t).filter
          (fun tr => !(find_all ["th", "td"] tr).isEmpty)).map rowCells := by
  rw [extractRows_eq_filter_map]
  congr 1
  apply List.filter_congr
  intro tr _
  by_cases h : find_all ["th", "td"] tr = []
  · simp [h, (rowCells_eq_nil_iff tr).mpr h]
  · have h2 : ¬ rowCells tr = [] := fun hc => h ((rowCells_eq_nil_iff tr).mp hc)
    have e1 : (rowCells tr).isEmpty = false := by simp [List.isEmpty_eq_false, h2]
    have e2 : (find_all ["th", "td"] tr).isEmpty = false := by
      simp [List.isEmpty_eq_false, h]
    rw [e1, e2]

/-- String concatenation concatenates the underlying character lists. -/
lemma string_data_append (s t : String) : (s ++ t).data = s.data ++ t.data := by
  cases s; cases t; rfl

/-- The no-HTML failure message differs from every out-of-range message
(the two failure kinds are distinct). -/
lemma noHtmlMsg_ne_oorMsg (n : Nat) (i : Int) : noHtmlMsg ≠ oorMsg n i := by
  intro h
  have hd : noHtmlMsg.data.head? = (oorMsg n i).data.head? := by rw [h]
  have h1 : (oorMsg n i).data.head? = some 'O' := by
    simp only [oorMsg, string_data_append]
    rfl
  have h2 : noHtmlMsg.data.head? = some 'N' := rfl
  rw [h1, h2] at hd
  exact absurd hd (by decide)

/-! The claims. -/

/-- C1: for the parse of
`<table><tr><th>A</th><th>B</th></tr><tr><td>1</td><td>2</td></tr><tr></tr></table>`
and `table_index = 0`, the extraction step of `scrape_table` returns
exactly `[["A", "B"], ["1", "2"]]`: two rows in document order, the
cell-less third row dropped. -/
theorem claim_C1_scenario :
    scrapeExtract doc1 0 = Except.ok [["A", "B"], ["1", "2"]] := rfl

/-- C2: for every document and every `table_index` at least the number
of tables found, extraction fails with the out-of-range error whose
message reports both the number of tables found and the requested
index. -/
theorem claim_C2_out_of_range (doc : Node) (table_index : Int)
    (h : ((tablesOf doc).length : Int) ≤ table_index) :
    scrapeExtract doc table_index
      = Except.error (oorMsg (tablesOf doc).length table_index) := by
  simp only [tablesOf] at h
  simp only [scrapeExtract, tablesOf]
  rw [if_pos h]

/-- Witness for C2: a document with zero tables at index 0 reports
"0 tables found", and a document with two tables at index 2 reports 2
tables found, index 2 requested. -/
theorem claim_C2_out_of_range_witness :
    scrapeExtract docNoTables 0 = Except.error (oorMsg 0 0) ∧
    scrapeExtract docTwoTables 2 = Except.error (oorMsg 2 2) ∧
    oorMsg 0 0 = "Only 0 tables found; index 0 out of range" ∧
    oorMsg 2 2 = "Only 2 tables found; index 2 out of range" :=
  ⟨claim_C2_out_of_range docNoTables 0 (by decide),
   claim_C2_out_of_range docTwoTables 2 (by decide), rfl, rfl⟩

/-- C3: for every document and every valid (non-negative, in-range)
`table_index`, extraction returns the rows of the selected table: the
row elements containing at least one th/td cell element, in document
order, so the row count equals the number of such row elements. -/
theorem claim_C3_row_count (doc : Node) (table_index : Int) (t : Node)
    (h0 : 0 ≤ table_index) (h : selectedTable doc table_index = some t) :
    scrapeExtract doc table_index = Except.ok (extractRows t) ∧
    extractRows t
      = ((find_all ["tr"] t).filter
          (fun tr => !(find_all ["th", "td"] tr).isEmpty)).map rowCells ∧
    (extractRows t).length
      = ((find_all ["tr"] t).filter
          (fun tr => !(find_all ["th", "td"] tr).isEmpty)).length := by
  refine ⟨?_, extractRows_eq_cellfilter_map t, ?_⟩
  · simp only [selectedTable, tablesOf, pyGet, if_pos h0] at h
    have hlt : table_index.toNat < (find_all ["table"] doc).length :=
      (List.get?_eq_some.mp h).1
    have hguard : ¬ (((find_all ["table"] doc).length : Int) ≤ table_index) := by
      omega
    simp only [scrapeExtract]
    rw [if_neg hguard]
    simp only [pyGet, if_pos h0, h]
  · rw [extractRows_eq_cellfilter_map t, List.length_map]

/-- Witness for C3 at the C1 scenario document. -/
theorem claim_C3_row_count_witness :
    scrapeExtract doc1 0 = Except.ok (extractRows table1) ∧
    extractRows table1
      = ((find_all ["tr"] table1).filter
          (fun tr => !(find_all ["th", "td"] tr).isEmpty)).map rowCells ∧
    (extractRows table1).length
      = ((find_all ["tr"] table1).filter
          (fun tr => !(find_all ["th", "td"] tr).isEmpty)).length :=
  claim_C3_row_count doc1 0 table1 (by decide) rfl

/-- C4: every row of a successful extraction is a non-empty list of
strings: a row element with no th/td cell never appears as an empty
sequence in the output. -/
theorem claim_C4_rows_nonempty (doc : Node) (table_index : Int)
    (rows : List (List String))
    (h : scrapeExtract doc table_index = Except.ok rows) :
    ∀ r ∈ rows, r ≠ [] := by
  intro r hr
  simp only [scrapeExtract] at h
  split at h
  · exact absurd h (by simp)
  · split at h
    · exact absurd h (by simp)
    · rename_i t _
      have hrows : rows = extractRows t := by
        cases h
        rfl
      rw [hrows, extractRows_eq_filter_map] at hr
      obtain ⟨tr, htr, hcell⟩ := List.mem_map.mp hr
      intro hnil
      have := List.of_mem_filter htr
      rw [hcell] at this
      simp [hnil] at this

/-- Witness for C4 at the C1 scenario document. -/
theorem claim_C4_rows_nonempty_witness :
    (["A", "B"] : List String) ≠ [] :=
  claim_C4_rows_nonempty doc1 0 [["A", "B"], ["1", "2"]] rfl ["A", "B"] (by simp)

/-- C5 counterexample: for the parse of `<td>a <b>x</b></td>` the code
produces `"ax"` (each text segment stripped, then concatenated), while
the text content of the cell with leading/trailing whitespace stripped
is `"a x"`; the two differ, so the produced string does not always equal
the text content stripped. -/
theorem claim_C5_counterexample :
    scrapeExtract docMixed 0 = Except.ok [["ax"]] ∧
    get_text_strip cellMixed = "ax" ∧
    textContentStripped cellMixed = "a x" ∧
    ("ax" : String) ≠ "a x" :=
  ⟨rfl, rfl, rfl, by decide⟩

/-- C5 amended: every produced cell string is `get_text(strip=True)` of
the cell element: its descendant text segments each stripped of leading
and trailing whitespace, empty segments dropped, then concatenated. For
a cell whose content is a single text segment this coincides with the
text content stripped; in particular a cell containing `"  123  "`
yields `"123"`. The result is always a string; markup is not decoded and
numbers are not coerced. -/
theorem claim_C5_cell_text_amended :
    (∀ tr : Node, rowCells tr = (find_all ["th", "td"] tr).map get_text_strip) ∧
    (∀ (tag : String) (attrs : List (String × String)) (s : String),
      get_text_strip (Node.elem tag attrs [Node.text s]) = pyStrip s) ∧
    (∀ (tag : String) (attrs : List (String × String)) (s : String),
      textContentStripped (Node.elem tag attrs [Node.text s]) = pyStrip s) ∧
    get_text_strip cell123 = "123" ∧
    scrapeExtract doc123 0 = Except.ok [["123"]] := by
  refine ⟨fun tr => rfl, ?_, ?_, rfl, rfl⟩
  · intro tag attrs s
    by_cases h : pyStrip s = ""
    · simp [get_text_strip, nodeStrings, stringsList, String.join, h]
    · simp [get_text_strip, nodeStrings, stringsList, String.join, h]
  · intro tag attrs s
    simp [textContentStripped, nodeStrings, stringsList, String.join]

/-- C6: a merged cell counts as exactly one entry: the row for
`<tr><td colspan="2">X</td><td>Y</td></tr>` is `["X", "Y"]` (two
entries, not three), and in general a row has exactly one string per
th/td cell element, whatever the attributes say. -/
theorem claim_C6_colspan_not_expanded :
    scrapeExtract docColspan 0 = Except.ok [["X", "Y"]] ∧
    (∀ rows : List (List String), scrapeExtract docColspan 0 = Except.ok rows →
      ∀ r ∈ rows, r.length = 2) ∧
    (∀ tr : Node, (rowCells tr).length = (find_all ["th", "td"] tr).length) := by
  refine ⟨rfl, ?_, fun tr => List.length_map _ _⟩
  intro rows h r hr
  have hrows : rows = [["X", "Y"]] :=
    Except.ok.inj (h.symm.trans
      (show scrapeExtract docColspan 0 = Except.ok [["X", "Y"]] from rfl))
  rw [hrows] at hr
  simp at hr
  rw [hr]
  rfl

/-- C7: when the payload pulled out of an otherwise-successful fetch
response is absent or the empty string, `scrape_table` fails with the
dedicated no-HTML error, a failure distinct from every out-of-range
error (in particular it is not the error a zero-table document would
produce): the input is never treated as a document with zero tables. -/
theorem claim_C7_empty_html (resp : ScrapeResponse) (parse : String → Node)
    (table_index : Int)
    (h : extractHtml resp = none ∨ extractHtml resp = some "") :
    scrape_table resp parse table_index = Except.error noHtmlMsg ∧
    (∀ n : Nat, noHtmlMsg ≠ oorMsg n table_index) := by
  constructor
  · rcases h with h | h <;> simp [scrape_table, h]
  · intro n
    exact noHtmlMsg_ne_oorMsg n table_index

/-- Witness for C7: a response whose data dictionary carries an empty
rawHtml value and no html key fails with the no-HTML error. -/
theorem claim_C7_empty_html_witness :
    scrape_table ⟨some [("rawHtml", "")], none, none⟩ (fun _ => docNoTables) 0
      = Except.error noHtmlMsg ∧
    noHtmlMsg ≠ oorMsg 0 0 :=
  ⟨(claim_C7_empty_html ⟨some [("rawHtml", "")], none, none⟩ (fun _ => docNoTables) 0
      (Or.inl rfl)).1,
   (claim_C7_empty_html ⟨some [("rawHtml", "")], none, none⟩ (fun _ => docNoTables) 0
      (Or.inl rfl)).2 0⟩

/-- C8 counterexample: two provisioning responses with different non-200
status codes but the same body yield the very same raised failure, so
the raised failure does not carry the status code (it is only logged). -/
theorem claim_C8_counterexample :
    (create_new_google_sheet_tab "2025-01-01" "fid" "url"
        (fun _ _ => ⟨500, "boom"⟩)).2
      = Except.error "Sheet creation failed: boom" ∧
    (create_new_google_sheet_tab "2025-01-01" "fid" "url"
        (fun _ _ => ⟨404, "boom"⟩)).2
      = Except.error "Sheet creation failed: boom" ∧
    (create_new_google_sheet_tab "2025-01-01" "fid" "url"
        (fun _ _ => ⟨500, "boom"⟩)).2
      = (create_new_google_sheet_tab "2025-01-01" "fid" "url"
          (fun _ _ => ⟨404, "boom"⟩)).2 :=
  ⟨rfl, rfl, rfl⟩

/-- C8 amended: `create_new_google_sheet_tab` succeeds exactly when the
provisioning POST returns status 200; on every non-200 status it raises
a failure carrying the response body, while the status code together
with the body is reported in the error log; the request is a single POST
of the form fields sheetName and fileId to the configured endpoint URL
(the outcome depends on the oracle only through its response at that
request). -/
theorem claim_C8_provisioning_amended (sheet_name file_id script_url : String)
    (post : String → List (String × String) → HttpResponse) :
    ((create_new_google_sheet_tab sheet_name file_id script_url post).2 = Except.ok ()
       ↔ (post script_url [("sheetName", sheet_name), ("fileId", file_id)]).status_code
           = 200) ∧
    ((post script_url [("sheetName", sheet_name), ("fileId", file_id)]).status_code ≠ 200 →
      create_new_google_sheet_tab sheet_name file_id script_url post
        = (["Failed to create new sheet tab. Status code: "
              ++ (toString (post script_url
                    [("sheetName", sheet_name), ("fileId", file_id)]).status_code
              ++ (", Response: "
              ++ (post script_url
                    [("sheetName", sheet_name), ("fileId", file_id)]).text))],
           Except.error ("Sheet creation failed: "
              ++ (post script_url
                    [("sheetName", sheet_name), ("fileId", file_id)]).text))) ∧
    (∀ post2 : String → List (String × String) → HttpResponse,
      post2 script_url [("sheetName", sheet_name), ("fileId", file_id)]
          = post script_url [("sheetName", sheet_name), ("fileId", file_id)] →
      create_new_google_sheet_tab sheet_name file_id script_url post2
        = create_new_google_sheet_tab sheet_name file_id script_url post) := by
  refine ⟨?_, ?_, ?_⟩
  · by_cases h : (post script_url
        [("sheetName", sheet_name), ("fileId", file_id)]).status_code = 200
    · simp [create_new_google_sheet_tab, h]
    · simp [create_new_google_sheet_tab, h]
  · intro h
    simp [create_new_google_sheet_tab, h]
  · intro post2 h
    simp [create_new_google_sheet_tab, h]

/-- Witness for C8 amended: a 500 response with body `"boom"` yields the
logged message carrying status and body, and the raised failure carrying
the body. -/
theorem claim_C8_provisioning_amended_witness :
    create_new_google_sheet_tab "2025-01-01" "fid" "url" (fun _ _ => ⟨500, "boom"⟩)
      = (["Failed to create new sheet tab. Status code: 500, Response: boom"],
         Except.error "Sheet creation failed: boom") :=
  (claim_C8_provisioning_amended "2025-01-01" "fid" "url"
    (fun _ _ => ⟨500, "boom"⟩)).2.1 (by decide)

/-- C9: the orchestrator issues exactly provision, then fetch-extract,
then write, in that order; a failing step ends the run with that error
and the later calls are never issued; when all prerequisites succeed the
write outcome is final with no further calls; and no trace ever repeats
a step (no retry) or adds one (no rollback). -/
theorem claim_C9_orchestration :
    (∀ (e : String) (s : Except String (List (List String)))
        (w : List (List String) → Except String Unit),
      mainRun (Except.error e) s w = ([Step.provision], Except.error e)) ∧
    (∀ (e : String) (w : List (List String) → Except String Unit),
      mainRun (Except.ok ()) (Except.error e) w
        = ([Step.provision, Step.fetchExtract], Except.error e)) ∧
    (∀ (t : List (List String)) (w : List (List String) → Except String Unit),
      mainRun (Except.ok ()) (Except.ok t) w
        = ([Step.provision, Step.fetchExtract, Step.write], w t)) ∧
    (∀ (p : Except String Unit) (s : Except String (List (List String)))
        (w : List (List String) → Except String Unit),
      ((mainRun p s w).1).Nodup ∧
      (mainRun p s w).1.Sublist [Step.provision, Step.fetchExtract, Step.write]) := by
  refine ⟨fun e s w => rfl, fun e w => rfl, fun t w => rfl, ?_⟩
  intro p s w
  cases p with
  | error e =>
    exact ⟨show ([Step.provision]).Nodup by decide,
           show ([Step.provision]).Sublist
               [Step.provision, Step.fetchExtract, Step.write] by decide⟩
  | ok u =>
    cases s with
    | error e =>
      exact ⟨show ([Step.provision, Step.fetchExtract]).Nodup by decide,
             show ([Step.provision, Step.fetchExtract]).Sublist
                 [Step.provision, Step.fetchExtract, Step.write] by decide⟩
    | ok t =>
      exact ⟨show ([Step.provision, Step.fetchExtract, Step.write]).Nodup by decide,
             show ([Step.provision, Step.fetchExtract, Step.write]).Sublist
                 [Step.provision, Step.fetchExtract, Step.write] by decide⟩

/-- C10: for every negative `table_index`, the out-of-range check never
fires; when the document has at least as many tables as the magnitude of
the index, extraction silently proceeds on the table at position
`count + table_index`, counting from the end. -/
theorem claim_C10_negative_index (doc : Node) (table_index : Int)
    (h0 : table_index < 0)
    (h1 : 0 ≤ table_index + (tablesOf doc).length) :
    ∃ t : Node,
      (tablesOf doc).get? (table_index + (tablesOf doc).length).toNat = some t ∧
      scrapeExtract doc table_index = Except.ok (extractRows t) := by
  simp only [tablesOf] at h1 ⊢
  have hlt : (table_index + ((find_all ["table"] doc).length : Int)).toNat
      < (find_all ["table"] doc).length := by
    omega
  obtain ⟨t, ht⟩ : ∃ t, (find_all ["table"] doc).get?
      (table_index + ((find_all ["table"] doc).length : Int)).toNat = some t :=
    ⟨_, List.get?_eq_get hlt⟩
  refine ⟨t, ht, ?_⟩
  have hguard : ¬ (((find_all ["table"] doc).length : Int) ≤ table_index) := by
    omega
  have hneg : ¬ (0 ≤ table_index) := by omega
  simp only [scrapeExtract]
  rw [if_neg hguard]
  simp only [pyGet, if_neg hneg, if_pos h1, ht]

/-- Witness for C10: on the two-table document, index -1 selects the
second table and extraction returns its row. -/
theorem claim_C10_negative_index_witness :
    ((-1 : Int) < 0) ∧
    (∃ t : Node,
      (tablesOf docTwoTables).get?
          ((-1 : Int) + (tablesOf docTwoTables).length).toNat = some t ∧
      scrapeExtract docTwoTables (-1) = Except.ok (extractRows t)) ∧
    scrapeExtract docTwoTables (-1) = Except.ok [["second"]] :=
  ⟨by decide, claim_C10_negative_index docTwoTables (-1) (by decide) (by decide), rfl⟩

end FinanceScraper
